import Mathlib

/-!
Verification of the thankumail gift service's lifecycle and guard logic.

The development shallowly embeds the TypeScript source:
* `src/shared/schema.ts` — the `gifts` table row and the insert schema;
* `src/server/storage.ts` — `createGift`, `getGift`, `claimGift` over a
  list-of-rows model of the table;
* `src/server/routes.ts` — the claim handler (`POST /api/gifts/:publicId/claim`),
  the create handlers, `isDisposableEmail`, `verifyTurnstile`, `hitCounter`;
* the draft route file (`src/unnamed/part_001`) — `bumpDaily`.

Timestamps are naturals (milliseconds), JS numbers are rationals, and the
database table is a list of rows mutated by explicit state passing.
-/

namespace Thankumail

/-- A row of the `gifts` table (src/shared/schema.ts).  `amount` is the JS
number stored in the row; `claimedAt` is the nullable timestamp. -/
structure Gift where
  id : Nat
  publicId : String
  recipientEmail : String
  message : String
  amount : ℚ
  isClaimed : Bool
  createdAt : Nat
  claimedAt : Option Nat
deriving DecidableEq, Repr

/-- The validated creation payload (`insertGiftSchema`'s output type). -/
structure InsertGift where
  recipientEmail : String
  message : String
  amount : ℚ
deriving DecidableEq, Repr

/-- The `gifts` table, as the list of its rows. -/
abbrev Store := List Gift

/-- `DatabaseStorage.getGift`: `select … where publicId = pid`, first row. -/
def getGift (store : Store) (pid : String) : Option Gift :=
  store.find? (fun g => g.publicId == pid)

/-- `DatabaseStorage.createGift`: insert a fresh row.  The route supplies the
random `publicId`; the database supplies `id`, `createdAt` (now) and the
column defaults `isClaimed = false`, `claimedAt = null`. -/
def createGift (store : Store) (ins : InsertGift) (pid : String) (nid : Nat)
    (now : Nat) : Gift × Store :=
  let g : Gift :=
    { id := nid, publicId := pid, recipientEmail := ins.recipientEmail,
      message := ins.message, amount := ins.amount, isClaimed := false,
      createdAt := now, claimedAt := none }
  (g, store ++ [g])

/-- `DatabaseStorage.claimGift`: `update gifts set isClaimed = true,
claimedAt = now() where publicId = pid returning *`, first returned row.
Note the update's condition is only the `publicId` match — there is no
`isClaimed = false` conjunct. -/
def claimGift (store : Store) (pid : String) (now : Nat) : Option Gift × Store :=
  (((store.filter (fun g => g.publicId == pid)).map
      (fun g => { g with isClaimed := true, claimedAt := some now })).head?,
   store.map (fun g => if g.publicId == pid then
      { g with isClaimed := true, claimedAt := some now } else g))

/-- Responses of the programmatic claim handler (`POST /api/gifts/:publicId/claim`,
src/server/routes.ts lines 622-651). -/
inductive ClaimResp where
  | notFound
  | alreadyClaimed
  | cooldown
  | claimOk (g : Option Gift)
deriving DecidableEq, Repr

/-- HTTP status codes the claim handler attaches to each outcome. -/
def claimStatus : ClaimResp → Nat
  | .notFound => 404
  | .alreadyClaimed => 409
  | .cooldown => 429
  | .claimOk _ => 200

/-- Minimum delay before a claim is allowed (`MIN_CLAIM_DELAY_MS`). -/
def minClaimDelayMs : Nat := 60000

/-- The tail of the claim handler after its initial `getGift` read: the
`isClaimed` check, the cooldown check, and the unconditional update.
Splitting the read out makes the handler's two database accesses (read,
update) explicit, which is what an interleaving of two requests permutes. -/
def claimFinish (store : Store) (pid : String) (now : Nat) :
    Option Gift → ClaimResp × Store
  | none => (.notFound, store)
  | some g =>
    if g.isClaimed then (.alreadyClaimed, store)
    else if now - g.createdAt < minClaimDelayMs then (.cooldown, store)
    else
      let r := claimGift store pid now
      (.claimOk r.1, r.2)

/-- The claim handler run in isolation: read, then finish. -/
def claimHandler (store : Store) (pid : String) (now : Nat) : ClaimResp × Store :=
  claimFinish store pid now (getGift store pid)

/-- Two concurrent claim requests for the same `publicId`, interleaved so that
both `getGift` reads happen before either update (the schedule read-A, read-B,
update-A, update-B).  Returns both responses and the final table. -/
def twoClaimRace (store : Store) (pid : String) (t1 t2 : Nat) :
    ClaimResp × ClaimResp × Store :=
  let g1 := getGift store pid
  let g2 := getGift store pid
  let r1 := claimFinish store pid t1 g1
  let r2 := claimFinish r1.2 pid t2 g2
  (r1.1, r2.1, r2.2)

/-- The per-row invariant of §3 of the design: `claimedAt` is non-null iff
`isClaimed` is true. -/
def ClaimInv (g : Gift) : Prop := g.claimedAt ≠ none ↔ g.isClaimed = true

/-! ### Character-level string helpers

`getDomain` in src/server/routes.ts uses `lastIndexOf("@")`, `slice`,
`trim()` and `toLowerCase()`, and `isDisposableEmail` uses
`String.prototype.includes`.  These are embedded on `List Char` so that every
definition reduces in the kernel. -/

/-- Does `hay` start with `needle`? -/
def startsWith : List Char → List Char → Bool
  | _, [] => true
  | [], _ :: _ => false
  | a :: as, b :: bs => a == b && startsWith as bs

/-- JS `hay.includes(needle)`: does `needle` occur contiguously in `hay`? -/
def hasSub (needle : List Char) : List Char → Bool
  | [] => startsWith [] needle
  | c :: t => startsWith (c :: t) needle || hasSub needle t

/-- The text after the last `'@'`, or `none` when there is no `'@'`
(JS `lastIndexOf("@")` / `slice(at + 1)`). -/
def afterLastAt : List Char → Option (List Char)
  | [] => none
  | c :: t =>
    match afterLastAt t with
    | some d => some d
    | none => if c == '@' then some t else none

/-- JS `trim()` on ASCII input: drop whitespace from both ends. -/
def trimChars (l : List Char) : List Char :=
  ((l.dropWhile Char.isWhitespace).reverse.dropWhile Char.isWhitespace).reverse

/-- JS `s.trim()` as a `String` operation. -/
def strTrim (s : String) : String := ⟨trimChars s.data⟩

/-- JS `s.trim().toLowerCase()` as a `String` operation (the normalisation the
create handler applies to `recipientEmail`). -/
def emailNorm (s : String) : String := ⟨(trimChars s.data).map Char.toLower⟩

/-! ### Disposable-email check (src/server/routes.ts, `getDomain` /
`isDisposableEmail`) -/

/-- `getDomain`: the substring after the last `'@'`, trimmed and lower-cased;
`""` when the email has no `'@'`. -/
def getDomain (email : String) : String :=
  match afterLastAt email.data with
  | none => ""
  | some d => ⟨(trimChars d).map Char.toLower⟩

/-- The static blocklist in `isDisposableEmail`. -/
def blockedDomains : List String :=
  ["mailinator.com", "guerrillamail.com", "guerrillamail.net",
   "guerrillamail.org", "tempmail.com", "temp-mail.org", "10minutemail.com",
   "10minutemail.net", "yopmail.com", "yopmail.fr", "yopmail.net"]

/-- `isDisposableEmail` (src/server/routes.ts lines 220-247).  `enabled` is
the `ENABLE_DISPOSABLE_BLOCK` flag.  When enabled, an empty domain is
rejected, and otherwise the domain is rejected when it is in the blocklist or
contains `"tempmail"` or `"trashmail"` as a substring. -/
def isDisposableEmail (enabled : Bool) (email : String) : Bool :=
  if !enabled then false
  else
    let domain := getDomain email
    if domain = "" then true
    else
      blockedDomains.contains domain ||
        hasSub "tempmail".data domain.data || hasSub "trashmail".data domain.data

/-! ### CAPTCHA (src/server/routes.ts, `verifyTurnstile`) -/

/-- Result of `verifyTurnstile`: whether it reported success, and whether it
reached the external siteverify endpoint. -/
structure TurnstileResult where
  ok : Bool
  contactedNetwork : Bool
deriving DecidableEq, Repr

/-- `verifyTurnstile`: with no configured secret it succeeds immediately
(`{ ok: true, skipped: true }`); with a secret but an empty token it fails
locally (`missing_token`); otherwise the outcome is whatever the external
service answers (`oracle`). -/
def verifyTurnstile (secret token : String) (oracle : Bool) : TurnstileResult :=
  if secret = "" then ⟨true, false⟩
  else if token = "" then ⟨false, false⟩
  else ⟨oracle, true⟩

/-! ### Daily counters -/

/-- `Counter` of src/server/routes.ts: `{ count, resetAt }`. -/
structure Counter where
  count : Nat
  resetAt : Nat
deriving DecidableEq, Repr

/-- `DailyBucket` of src/unnamed/part_001: `{ dayKey, count }`. -/
structure DailyBucket where
  dayKey : String
  count : Nat
deriving DecidableEq, Repr

/-- JS `Map.prototype.set`: replace the binding of `k`, or append it. -/
def setKey {α : Type} : List (String × α) → String → α → List (String × α)
  | [], k, v => [(k, v)]
  | (k0, v0) :: t, k, v =>
    if k0 == k then (k, v) :: t else (k0, v0) :: setKey t k v

/-- `hitCounter` (src/server/routes.ts lines 196-206): on a fresh or expired
entry, store count 1 (ok); otherwise increment the stored count and report
failure exactly when the new count exceeds `lim`.  `now` is `Date.now()` and
`nextReset` is `startOfNextDay()`. -/
def hitCounter (m : List (String × Counter)) (key : String) (lim : Nat)
    (now nextReset : Nat) : Bool × List (String × Counter) :=
  match m.lookup key with
  | none => (true, setKey m key ⟨1, nextReset⟩)
  | some cur =>
    if cur.resetAt ≤ now then (true, setKey m key ⟨1, nextReset⟩)
    else
      let c := cur.count + 1
      (decide (c ≤ lim), setKey m key ⟨c, cur.resetAt⟩)

/-- `bumpDaily` (src/unnamed/part_001 lines 100-116): on a fresh entry or a
stale day, store count 1 (ok); when the stored count has reached the limit,
reject without touching the map; otherwise increment and accept. -/
def bumpDaily (m : List (String × DailyBucket)) (key : String) (lim : Nat)
    (today : String) : Bool × List (String × DailyBucket) :=
  match m.lookup key with
  | none => (true, setKey m key ⟨today, 1⟩)
  | some b =>
    if b.dayKey ≠ today then (true, setKey m key ⟨today, 1⟩)
    else if lim ≤ b.count then (false, m)
    else (true, setKey m key ⟨today, b.count + 1⟩)

/-- `n` successive `bumpDaily` calls for the same key on the same UTC day,
starting from an empty map; returns the `n`-th call's verdict and the map. -/
def runBump (lim : Nat) (today key : String) : Nat → Bool × List (String × DailyBucket)
  | 0 => (true, [])
  | n + 1 =>
    let prev := runBump lim today key n
    bumpDaily prev.2 key lim today

/-- `n` successive `hitCounter` calls for the same key at the same instant,
starting from an empty map; returns the `n`-th call's verdict and the map. -/
def runHit (lim : Nat) (now nextReset : Nat) (key : String) :
    Nat → Bool × List (String × Counter)
  | 0 => (true, [])
  | n + 1 =>
    let prev := runHit lim now nextReset key n
    hitCounter prev.2 key lim now nextReset

/-! ### Amount validation and the zod insert schema -/

/-- `MIN_AMOUNT_CENTS` of src/server/routes.ts. -/
def minAmountCents : ℚ := 1000

/-- `PRICE_TIERS_CENTS` of src/server/routes.ts. -/
def priceTiers : List ℚ := [1000, 2000, 5000, 10000, 20000, 50000]

/-- The create handler's amount checks (src/server/routes.ts lines 548-559).
The argument is `Number(req.body.amount)`: `none` stands for a non-finite
value (`NaN`/`±Infinity`), `some a` for the finite value `a`.  The result is
the `(field, message)` of the 400 response, or `none` when the amount passes.
`a.den = 1` is JS `Number.isInteger`. -/
def amountGuard (enforceTiers : Bool) (amt : Option ℚ) : Option (String × String) :=
  match amt with
  | none => some ("amount", "Invalid amount.")
  | some a =>
    if a.den ≠ 1 ∨ a ≤ 0 then some ("amount", "Invalid amount.")
    else if a < minAmountCents then some ("amount", "Minimum amount is $10")
    else if enforceTiers && !(priceTiers.contains a) then
      some ("amount", "Invalid amount selection.")
    else none

/-- `insertGiftSchema.parse` (src/shared/schema.ts lines 16-24): strings pass
through, and `amount` must satisfy `min(1000)` and `max(100000)`; `none`
(a non-finite number) fails the bound checks.  Errors carry the offending
field and message. -/
def zodParseGift (email msg : String) (amt : Option ℚ) :
    Except (String × String) InsertGift :=
  match amt with
  | none => .error ("amount", "Minimum amount is $10")
  | some a =>
    if a < 1000 then .error ("amount", "Minimum amount is $10")
    else if 100000 < a then .error ("amount", "Maximum amount is $1000")
    else .ok ⟨email, msg, a⟩

/-! ### The create handlers -/

/-- Responses of the gift-creation handlers, by rejection site.
`internalError` is the catch-all 500 of either handler's `catch`. -/
inductive CreateResp where
  | captchaFailed
  | quotaIp
  | quotaEmail
  | missingFields
  | disposableRejected
  | amountRejected (field msg : String)
  | messageTooLong
  | zodRejected (field msg : String)
  | created (giftId claimLink : String)
  | internalError
deriving DecidableEq, Repr

/-- HTTP status codes the create handlers attach to each outcome. -/
def createStatus : CreateResp → Nat
  | .captchaFailed => 400
  | .quotaIp => 429
  | .quotaEmail => 429
  | .missingFields => 400
  | .disposableRejected => 400
  | .amountRejected _ _ => 400
  | .messageTooLong => 400
  | .zodRejected _ _ => 400
  | .created _ _ => 201
  | .internalError => 500

/-- Environment configuration read by the canonical create handler. -/
structure Config where
  turnstileSecret : String
  enforceTiers : Bool
  disposableEnabled : Bool
deriving DecidableEq, Repr

/-- A creation request body plus the caller's IP.  `recipientEmail = ""`
models a missing/falsy field, `message = ""` a missing message;
`amount = none` models `undefined`, `some none` a non-finite `Number(amount)`,
and `some (some a)` the finite value `a`. -/
structure CreateReq where
  recipientEmail : String
  message : String
  amount : Option (Option ℚ)
  turnstileToken : String
  ip : String
deriving DecidableEq, Repr

/-- The mutable server state the create handlers touch: the two daily counter
maps and the gifts table. -/
structure SrvState where
  ipDaily : List (String × Counter)
  emailDaily : List (String × Counter)
  store : Store
deriving DecidableEq, Repr

/-- `DAILY_MAX_PER_IP` of src/server/routes.ts. -/
def dailyMaxPerIp : Nat := 20

/-- `DAILY_MAX_PER_EMAIL` of src/server/routes.ts. -/
def dailyMaxPerEmail : Nat := 10

/-- The canonical create handler (src/server/routes.ts lines 521-606), step
by step in source order: Turnstile, per-IP counter, required fields, per-email
counter, disposable check, amount checks, message length, zod parse, insert,
awaited email attempt — and then the stray labelled statement
`returnorial: any = undefined;` at line 592.  In strict mode (the sources are
ES modules) that is an assignment to the undeclared identifier `any`, which
throws a ReferenceError before the 201 line is reached; the `catch` is not a
`ZodError` case, so it answers the generic 500.  The path that passes every
guard therefore ends in `internalError`, with the row already persisted and
both counters already consumed.  `orc` is the external CAPTCHA verdict, `pid`
and `nid` the fresh public/serial ids, and `emailRes` the email attempt's
outcome, which the code ignores. -/
def createHandler (cfg : Config) (rq : CreateReq) (st : SrvState)
    (now nextReset : Nat) (pid : String) (nid : Nat) (orc emailRes : Bool) :
    CreateResp × SrvState :=
  let ts := verifyTurnstile cfg.turnstileSecret rq.turnstileToken orc
  if ts.ok = false then (.captchaFailed, st)
  else
    let ipKey := if rq.ip = "" then "unknown" else rq.ip
    let hIp := hitCounter st.ipDaily ipKey dailyMaxPerIp now nextReset
    let st1 := { st with ipDaily := hIp.2 }
    if hIp.1 = false then (.quotaIp, st1)
    else if rq.recipientEmail = "" ∨ rq.amount = none then (.missingFields, st1)
    else
      let email := emailNorm rq.recipientEmail
      let hEm := hitCounter st1.emailDaily email dailyMaxPerEmail now nextReset
      let st2 := { st1 with emailDaily := hEm.2 }
      if hEm.1 = false then (.quotaEmail, st2)
      else if isDisposableEmail cfg.disposableEnabled email then
        (.disposableRejected, st2)
      else
        match amountGuard cfg.enforceTiers (rq.amount.getD none) with
        | some (f, m) => (.amountRejected f m, st2)
        | none =>
          if rq.message ≠ "" ∧ 3000 < rq.message.length then (.messageTooLong, st2)
          else
            match zodParseGift email (strTrim rq.message) (rq.amount.getD none) with
            | .error (f, m) => (.zodRejected f m, st2)
            | .ok ins =>
              let r := createGift st2.store ins pid nid now
              let _ := emailRes
              (.internalError, { st2 with store := r.2 })

/-- Observable actions of a create handler, in execution order. -/
inductive Act where
  | persistRow
  | emailSend (ok : Bool)
  | respond
deriving DecidableEq, Repr

/-- Does the handler respond before any email action in the trace? -/
def respondPrecedesEmail : List Act → Bool
  | [] => true
  | .respond :: _ => true
  | .emailSend _ :: _ => false
  | .persistRow :: t => respondPrecedesEmail t

/-- The first-draft create handler of src/server/routes.ts (lines 39-83):
required fields, 3000-character message cap, zod parse, insert, then an
awaited `sendGiftEmail` whose result `emailRes` is discarded (the function
returns a result object rather than throwing), then the 201 response.  The
third component is the trace of persistence/email/response actions. -/
def createV1 (rq : CreateReq) (store : Store) (pid : String) (nid now : Nat)
    (emailRes : Bool) : CreateResp × Store × List Act :=
  if rq.recipientEmail = "" ∨ rq.amount = none then
    (.missingFields, store, [.respond])
  else if rq.message ≠ "" ∧ 3000 < rq.message.length then
    (.messageTooLong, store, [.respond])
  else
    match zodParseGift rq.recipientEmail (strTrim rq.message) (rq.amount.getD none) with
    | .error (f, m) => (.zodRejected f m, store, [.respond])
    | .ok ins =>
      let r := createGift store ins pid nid now
      (.created r.1.publicId ("/claim/" ++ r.1.publicId), r.2,
       [.persistRow, .emailSend emailRes, .respond])

end Thankumail

namespace Thankumail

/-! ## Helper lemmas -/

/-- Up to the limit, successive `bumpDaily` calls for one key on one day
accept and count exactly the calls made. -/
theorem runBump_le (L : Nat) (today key : String) (_hL : 1 ≤ L) :
    ∀ n, 1 ≤ n → n ≤ L → runBump L today key n = (true, [(key, ⟨today, n⟩)]) := by
  intro n hn hnL
  induction n with
  | zero => omega
  | succ m ih =>
    by_cases hm : 1 ≤ m
    · have hprev := ih hm (by omega)
      simp only [runBump, hprev, bumpDaily, List.lookup, beq_self_eq_true, if_pos,
        ne_eq, not_true_eq_false, if_false, setKey]
      rw [if_neg (by omega)]
    · have hm0 : m = 0 := by omega
      subst hm0
      simp [runBump, bumpDaily, List.lookup, setKey]

/-- The first `bumpDaily` call past the limit is rejected and the map keeps
the count at the limit. -/
theorem runBump_over (L : Nat) (today key : String) (hL : 1 ≤ L) :
    runBump L today key (L + 1) = (false, [(key, ⟨today, L⟩)]) := by
  have hprev := runBump_le L today key hL L hL (le_refl L)
  simp only [runBump, hprev, bumpDaily, List.lookup, beq_self_eq_true, if_pos,
    ne_eq, not_true_eq_false, if_false]
  rw [if_pos (le_refl L)]

/-- Up to the limit, successive `hitCounter` calls for one key before the
reset instant accept and count exactly the calls made. -/
theorem runHit_le (L : Nat) (now next : Nat) (key : String) (hnow : now < next) :
    ∀ n, 1 ≤ n → n ≤ L → runHit L now next key n = (true, [(key, ⟨n, next⟩)]) := by
  intro n hn hnL
  induction n with
  | zero => omega
  | succ m ih =>
    by_cases hm : 1 ≤ m
    · have hprev := ih hm (by omega)
      simp only [runHit, hprev, hitCounter, List.lookup, beq_self_eq_true, if_pos]
      rw [if_neg (by omega)]
      simp [setKey, decide_eq_true_eq]
      omega
    · have hm0 : m = 0 := by omega
      subst hm0
      simp [runHit, hitCounter, List.lookup, setKey]

/-- The first `hitCounter` call past the limit is rejected, though the stored
count still increments. -/
theorem runHit_over (L : Nat) (now next : Nat) (key : String) (hnow : now < next)
    (hL : 1 ≤ L) :
    runHit L now next key (L + 1) = (false, [(key, ⟨L + 1, next⟩)]) := by
  have hprev := runHit_le L now next key hnow L hL (le_refl L)
  simp only [runHit, hprev, hitCounter, List.lookup, beq_self_eq_true, if_pos]
  rw [if_neg (by omega)]
  simp [setKey, decide_eq_false_iff_not]

/-! ## Claim theorems -/

/-- C1: the claim mutation is NOT an atomic conditional update.  The handler
reads the row, checks `isClaimed`, and only then runs `claimGift`, whose
`update … where publicId = pid` has no `isClaimed = false` guard.  Under the
interleaving read-A, read-B, update-A, update-B of two concurrent claim
requests for the same unclaimed gift, both requests succeed with HTTP 200
(neither observes AlreadyClaimed) and the second update overwrites
`claimedAt`; moreover `claimGift` applied to an already-claimed row still
rewrites it and returns it. -/
theorem claim_race_both_succeed :
    twoClaimRace [⟨1, "abc", "r@e.com", "hi", 1500, false, 0, none⟩] "abc"
        100000 100007 =
      (.claimOk (some ⟨1, "abc", "r@e.com", "hi", 1500, true, 0, some 100000⟩),
       .claimOk (some ⟨1, "abc", "r@e.com", "hi", 1500, true, 0, some 100007⟩),
       [⟨1, "abc", "r@e.com", "hi", 1500, true, 0, some 100007⟩]) ∧
    claimStatus (twoClaimRace [⟨1, "abc", "r@e.com", "hi", 1500, false, 0, none⟩]
        "abc" 100000 100007).1 = 200 ∧
    claimStatus (twoClaimRace [⟨1, "abc", "r@e.com", "hi", 1500, false, 0, none⟩]
        "abc" 100000 100007).2.1 = 200 ∧
    claimGift [⟨1, "abc", "r@e.com", "hi", 1500, true, 0, some 11111⟩] "abc" 99999 =
      (some ⟨1, "abc", "r@e.com", "hi", 1500, true, 0, some 99999⟩,
       [⟨1, "abc", "r@e.com", "hi", 1500, true, 0, some 99999⟩]) := by
  refine ⟨by decide, by decide, by decide, by decide⟩

/-- C4: a claim on an existing but already-claimed `publicId` answers
AlreadyClaimed with HTTP 409, distinct from NotFound's 404, and returns the
table unchanged (so `claimedAt` keeps its value); a claim on a `publicId`
with no row answers NotFound. -/
theorem claim_conflict_vs_not_found (store : Store) (pid : String) (now : Nat) :
    (∀ g, getGift store pid = some g → g.isClaimed = true →
      claimHandler store pid now = (.alreadyClaimed, store)) ∧
    (getGift store pid = none → claimHandler store pid now = (.notFound, store)) ∧
    claimStatus .alreadyClaimed = 409 ∧ claimStatus .notFound = 404 ∧
    ClaimResp.alreadyClaimed ≠ ClaimResp.notFound := by
  refine ⟨?_, ?_, rfl, rfl, by decide⟩
  · intro g hg hc
    simp [claimHandler, hg, claimFinish, hc]
  · intro h
    simp [claimHandler, h, claimFinish]

/-- Witness for C4 at a concrete table: one gift `"abc"` already claimed at
5; claiming `"abc"` answers AlreadyClaimed and leaves the table as it was,
claiming the absent `"zzz"` answers NotFound. -/
theorem claim_conflict_vs_not_found_witness :
    claimHandler [⟨1, "abc", "r", "m", 1500, true, 0, some 5⟩] "abc" 999999 =
      (.alreadyClaimed, [⟨1, "abc", "r", "m", 1500, true, 0, some 5⟩]) ∧
    claimHandler [⟨1, "abc", "r", "m", 1500, true, 0, some 5⟩] "zzz" 999999 =
      (.notFound, [⟨1, "abc", "r", "m", 1500, true, 0, some 5⟩]) := by
  constructor
  · exact (claim_conflict_vs_not_found _ "abc" 999999).1
      ⟨1, "abc", "r", "m", 1500, true, 0, some 5⟩ (by decide) rfl
  · exact (claim_conflict_vs_not_found _ "zzz" 999999).2.1 (by decide)

/-- C5: the operations preserve the invariant `claimedAt ≠ null ↔ isClaimed`:
`createGift` inserts its row with `isClaimed = false` and `claimedAt = null`
and preserves the invariant on the whole table; `claimGift` sets
`isClaimed = true` and `claimedAt = some now` together on every row it
touches and preserves the invariant on the whole table. -/
theorem operations_preserve_claim_inv (store : Store) (ins : InsertGift)
    (pid : String) (nid now : Nat) :
    ((createGift store ins pid nid now).1.isClaimed = false ∧
      (createGift store ins pid nid now).1.claimedAt = none) ∧
    ((∀ g ∈ store, ClaimInv g) →
      ∀ g ∈ (createGift store ins pid nid now).2, ClaimInv g) ∧
    (∀ g ∈ (claimGift store pid now).2, g.publicId = pid →
      g.isClaimed = true ∧ g.claimedAt = some now) ∧
    ((∀ g ∈ store, ClaimInv g) → ∀ g ∈ (claimGift store pid now).2, ClaimInv g) := by
  refine ⟨⟨rfl, rfl⟩, ?_, ?_, ?_⟩
  · intro hInv g hg
    simp only [createGift, List.mem_append, List.mem_singleton] at hg
    rcases hg with hg | hg
    · exact hInv g hg
    · subst hg
      simp [ClaimInv]
  · intro g hg hp
    simp only [claimGift, List.mem_map] at hg
    obtain ⟨x, hx, rfl⟩ := hg
    by_cases hb : (x.publicId == pid) = true
    · simp [hb]
    · rw [if_neg hb] at hp
      exact absurd hp (by simpa using hb)
  · intro hInv g hg
    simp only [claimGift, List.mem_map] at hg
    obtain ⟨x, hx, rfl⟩ := hg
    by_cases hb : (x.publicId == pid) = true
    · simp [hb, ClaimInv]
    · rw [if_neg hb]
      exact hInv x hx

/-- Witness for C5 at a concrete table and insert. -/
theorem operations_preserve_claim_inv_witness :
    (∀ g ∈ (createGift [] ⟨"r@e.com", "hi", 1500⟩ "p1" 1 0).2, ClaimInv g) ∧
    (∀ g ∈ (claimGift [⟨1, "p1", "r@e.com", "hi", 1500, false, 0, none⟩] "p1" 70000).2,
      ClaimInv g) := by
  constructor
  · exact (operations_preserve_claim_inv [] ⟨"r@e.com", "hi", 1500⟩ "p1" 1 0).2.1
      (by intro g hg; cases hg)
  · exact (operations_preserve_claim_inv
      [⟨1, "p1", "r@e.com", "hi", 1500, false, 0, none⟩] ⟨"r@e.com", "hi", 1500⟩
      "p1" 1 70000).2.2.2
      (by intro g hg; simp only [List.mem_singleton] at hg; subst hg; simp [ClaimInv])

/-- C9: `claimGift` on a `publicId` with no matching row returns no row
(`undefined` at the call site, despite the declared `Promise<Gift>` type) and
leaves every row of the table unchanged. -/
theorem claimGift_missing_id (store : Store) (pid : String) (now : Nat)
    (h : ∀ g ∈ store, g.publicId ≠ pid) :
    claimGift store pid now = (none, store) := by
  induction store with
  | nil => rfl
  | cons g t ih =>
    have hg : (g.publicId == pid) = false := by
      simpa using h g (List.mem_cons_self g t)
    have ht := ih (fun x hx => h x (List.mem_cons_of_mem g hx))
    rw [Prod.ext_iff] at ht ⊢
    simp only [claimGift] at ht ⊢
    have hg2 : ¬g.publicId = pid := by simpa using hg
    refine ⟨?_, ?_⟩
    · simpa [List.filter_cons, hg] using ht.1
    · simpa [hg, hg2] using ht.2

/-- Witness for C9: claiming the absent id `"zzz"` returns no row and leaves
the one-row table unchanged. -/
theorem claimGift_missing_id_witness :
    claimGift [⟨1, "abc", "r", "m", 1500, false, 0, none⟩] "zzz" 5 =
      (none, [⟨1, "abc", "r", "m", 1500, false, 0, none⟩]) :=
  claimGift_missing_id [⟨1, "abc", "r", "m", 1500, false, 0, none⟩] "zzz" 5
    (by decide)

/-- C2, counterexample: the create handler does wait on the email attempt.
On a valid request whose email dispatch fails, the handler still persists
the row and answers 201 — but its action trace runs the email attempt
before the response, so the response is not returned without waiting on
email delivery. -/
theorem createV1_waits_on_email_counterexample :
    (createV1 ⟨"r@example.com", "hello", some (some 1500), "", "ip"⟩ [] "p1" 1 0
        false).1 = .created "p1" "/claim/p1" ∧
    (createV1 ⟨"r@example.com", "hello", some (some 1500), "", "ip"⟩ [] "p1" 1 0
        false).2.2 = [.persistRow, .emailSend false, .respond] ∧
    respondPrecedesEmail
      ((createV1 ⟨"r@example.com", "hello", some (some 1500), "", "ip"⟩ [] "p1" 1 0
        false).2.2) = false := by
  refine ⟨by decide, by decide, by decide⟩

/-- C2, amended: every creation request that persists a row gets the 201
success response with the gift id and claim link, for any email outcome
(`sendGiftEmail` returns a result instead of throwing, and the handler
ignores it) — but the handler awaits the email attempt before responding:
the trace is persist, email, respond. -/
theorem createV1_success_ignores_email (rq : CreateReq) (store : Store)
    (pid : String) (nid now : Nat) (ins : InsertGift)
    (hMiss : ¬(rq.recipientEmail = "" ∨ rq.amount = none))
    (hLen : ¬(rq.message ≠ "" ∧ 3000 < rq.message.length))
    (hZod : zodParseGift rq.recipientEmail (strTrim rq.message) (rq.amount.getD none) =
      .ok ins) :
    ∀ e : Bool, createV1 rq store pid nid now e =
      (.created pid ("/claim/" ++ pid),
       store ++ [⟨nid, pid, ins.recipientEmail, ins.message, ins.amount, false, now, none⟩],
       [.persistRow, .emailSend e, .respond]) := by
  intro e
  unfold createV1
  rw [if_neg hMiss, if_neg hLen, hZod]
  simp [createGift]

/-- Witness for C2's amended theorem: a concrete valid request gets a 201
with trace persist, email, respond, for a failing email outcome. -/
theorem createV1_success_ignores_email_witness :
    createV1 ⟨"r@example.com", "hello", some (some 1500), "", "ip"⟩ [] "p9" 1 0 false =
      (.created "p9" "/claim/p9",
       [⟨1, "p9", "r@example.com", "hello", 1500, false, 0, none⟩],
       [.persistRow, .emailSend false, .respond]) :=
  createV1_success_ignores_email ⟨"r@example.com", "hello", some (some 1500), "", "ip"⟩
    [] "p9" 1 0 ⟨"r@example.com", "hello", 1500⟩ (by decide) (by decide) rfl false

/-- C3, counterexample: a creation request rejected by the disposable-email
check does not leave the counters unchanged — both the per-IP and the
per-recipient daily counters have already been incremented when the 400 is
returned, because the handler bumps them before the disposable, amount,
schema and persistence steps. -/
theorem create_quota_counterexample :
    createHandler ⟨"", false, true⟩
        ⟨"x@mailinator.com", "hi", some (some 1500), "", "1.2.3.4"⟩
        ⟨[], [], []⟩ 500 86400000 "p1" 1 false false =
      (.disposableRejected,
       ⟨[("1.2.3.4", ⟨1, 86400000⟩)], [("x@mailinator.com", ⟨1, 86400000⟩)], []⟩) ∧
    ([("1.2.3.4", (⟨1, 86400000⟩ : Counter))] ≠ ([] : List (String × Counter))) ∧
    ([("x@mailinator.com", (⟨1, 86400000⟩ : Counter))] ≠ ([] : List (String × Counter))) := by
  refine ⟨by decide, by decide, by decide⟩

/-- C3, amended: the canonical create handler's guard order is CAPTCHA,
per-IP quota, required fields, per-recipient quota, disposable check, amount
checks, message length, schema parse, persistence; each quota counter is
incremented at its check, so a request that passes both quota checks has
consumed both daily counters no matter what happens afterwards — rejection by
the disposable check, the amount checks, the message-length check or the
schema parse, or continuing to persistence — while a CAPTCHA rejection leaves
both counters unchanged, and a per-IP-quota or missing-field rejection leaves
the per-recipient counter unchanged. -/
theorem create_counters_consumed_before_rejection (cfg : Config) (rq : CreateReq)
    (st : SrvState) (now next : Nat) (pid : String) (nid : Nat) (orc eo : Bool)
    (m1 m2 : List (String × Counter))
    (hcap : (verifyTurnstile cfg.turnstileSecret rq.turnstileToken orc).ok = true)
    (hIp : hitCounter st.ipDaily (if rq.ip = "" then "unknown" else rq.ip)
      dailyMaxPerIp now next = (true, m1))
    (hMiss : ¬(rq.recipientEmail = "" ∨ rq.amount = none))
    (hEm : hitCounter st.emailDaily (emailNorm rq.recipientEmail)
      dailyMaxPerEmail now next = (true, m2)) :
    ((createHandler cfg rq st now next pid nid orc eo).2.ipDaily = m1 ∧
     (createHandler cfg rq st now next pid nid orc eo).2.emailDaily = m2) ∧
    (isDisposableEmail cfg.disposableEnabled (emailNorm rq.recipientEmail) = true →
      createHandler cfg rq st now next pid nid orc eo =
        (.disposableRejected, ⟨m1, m2, st.store⟩)) ∧
    (∀ f m, isDisposableEmail cfg.disposableEnabled (emailNorm rq.recipientEmail) = false →
      amountGuard cfg.enforceTiers (rq.amount.getD none) = some (f, m) →
      createHandler cfg rq st now next pid nid orc eo =
        (.amountRejected f m, ⟨m1, m2, st.store⟩)) ∧
    (isDisposableEmail cfg.disposableEnabled (emailNorm rq.recipientEmail) = false →
      amountGuard cfg.enforceTiers (rq.amount.getD none) = none →
      rq.message ≠ "" ∧ 3000 < rq.message.length →
      createHandler cfg rq st now next pid nid orc eo =
        (.messageTooLong, ⟨m1, m2, st.store⟩)) ∧
    (∀ f m, isDisposableEmail cfg.disposableEnabled (emailNorm rq.recipientEmail) = false →
      amountGuard cfg.enforceTiers (rq.amount.getD none) = none →
      ¬(rq.message ≠ "" ∧ 3000 < rq.message.length) →
      zodParseGift (emailNorm rq.recipientEmail) (strTrim rq.message)
        (rq.amount.getD none) = .error (f, m) →
      createHandler cfg rq st now next pid nid orc eo =
        (.zodRejected f m, ⟨m1, m2, st.store⟩)) ∧
    (∀ (cfg2 : Config) (rq2 : CreateReq) (st2 : SrvState) (orc2 eo2 : Bool),
      (verifyTurnstile cfg2.turnstileSecret rq2.turnstileToken orc2).ok = false →
      createHandler cfg2 rq2 st2 now next pid nid orc2 eo2 = (.captchaFailed, st2)) ∧
    (∀ (cfg2 : Config) (rq2 : CreateReq) (st2 : SrvState) (orc2 eo2 : Bool)
      (m : List (String × Counter)),
      (verifyTurnstile cfg2.turnstileSecret rq2.turnstileToken orc2).ok = true →
      hitCounter st2.ipDaily (if rq2.ip = "" then "unknown" else rq2.ip)
        dailyMaxPerIp now next = (false, m) →
      (createHandler cfg2 rq2 st2 now next pid nid orc2 eo2).2.emailDaily =
        st2.emailDaily) ∧
    (∀ (cfg2 : Config) (rq2 : CreateReq) (st2 : SrvState) (orc2 eo2 : Bool)
      (m : List (String × Counter)),
      (verifyTurnstile cfg2.turnstileSecret rq2.turnstileToken orc2).ok = true →
      hitCounter st2.ipDaily (if rq2.ip = "" then "unknown" else rq2.ip)
        dailyMaxPerIp now next = (true, m) →
      (rq2.recipientEmail = "" ∨ rq2.amount = none) →
      createHandler cfg2 rq2 st2 now next pid nid orc2 eo2 =
        (.missingFields, { st2 with ipDaily := m })) := by
  refine ⟨?_, ?_, ?_, ?_, ?_, ?_, ?_, ?_⟩
  · have hshape : ∃ (resp : CreateResp) (stor : Store),
        createHandler cfg rq st now next pid nid orc eo = (resp, ⟨m1, m2, stor⟩) := by
      by_cases hD : isDisposableEmail cfg.disposableEnabled (emailNorm rq.recipientEmail) = true
      · exact ⟨.disposableRejected, st.store,
          by simp [createHandler, hcap, hIp, hEm, hMiss, hD]⟩
      · rw [Bool.not_eq_true] at hD
        cases hA : amountGuard cfg.enforceTiers (rq.amount.getD none) with
        | some fm =>
          obtain ⟨f, m⟩ := fm
          exact ⟨.amountRejected f m, st.store,
            by simp [createHandler, hcap, hIp, hEm, hMiss, hD, hA]⟩
        | none =>
          by_cases hL : rq.message ≠ "" ∧ 3000 < rq.message.length
          · exact ⟨.messageTooLong, st.store,
              by simp [createHandler, hcap, hIp, hEm, hMiss, hD, hA, hL.1, hL.2]⟩
          · cases hZ : zodParseGift (emailNorm rq.recipientEmail) (strTrim rq.message)
                (rq.amount.getD none) with
            | error fm =>
              obtain ⟨f, m⟩ := fm
              exact ⟨.zodRejected f m, st.store,
                by simp [createHandler, hcap, hIp, hEm, hMiss, hD, hA, hL, hZ]⟩
            | ok ins =>
              exact ⟨.internalError, (createGift st.store ins pid nid now).2,
                by simp [createHandler, hcap, hIp, hEm, hMiss, hD, hA, hL, hZ]⟩
    obtain ⟨resp, stor, hshape⟩ := hshape
    rw [hshape]
    exact ⟨rfl, rfl⟩
  · intro hD
    simp [createHandler, hcap, hIp, hEm, hMiss, hD]
  · intro f m hD hA
    simp [createHandler, hcap, hIp, hEm, hMiss, hD, hA]
  · intro hD hA hL
    simp [createHandler, hcap, hIp, hEm, hMiss, hD, hA, hL.1, hL.2]
  · intro f m hD hA hL hZ
    simp [createHandler, hcap, hIp, hEm, hMiss, hD, hA, hL, hZ]
  · intro cfg2 rq2 st2 orc2 eo2 hcap2
    simp [createHandler, hcap2]
  · intro cfg2 rq2 st2 orc2 eo2 m hcap2 hIp2
    simp [createHandler, hcap2, hIp2]
  · intro cfg2 rq2 st2 orc2 eo2 m hcap2 hIp2 hMiss2
    simp [createHandler, hcap2, hIp2, hMiss2]

/-- Witness for C3's amended theorem at a concrete request and empty state:
the disposable rejection arrives with both counters already consumed. -/
theorem create_counters_consumed_before_rejection_witness :
    createHandler ⟨"", false, true⟩
        ⟨"y@yopmail.com", "hi", some (some 2000), "", "9.9.9.9"⟩
        ⟨[], [], []⟩ 100 86400000 "p2" 2 false false =
      (.disposableRejected,
       ⟨[("9.9.9.9", ⟨1, 86400000⟩)], [("y@yopmail.com", ⟨1, 86400000⟩)], []⟩) ∧
    (createHandler ⟨"", false, true⟩
        ⟨"y@yopmail.com", "hi", some (some 2000), "", "9.9.9.9"⟩
        ⟨[], [], []⟩ 100 86400000 "p2" 2 false false).2.ipDaily =
      [("9.9.9.9", ⟨1, 86400000⟩)] := by
  have h := create_counters_consumed_before_rejection ⟨"", false, true⟩
    ⟨"y@yopmail.com", "hi", some (some 2000), "", "9.9.9.9"⟩ ⟨[], [], []⟩
    100 86400000 "p2" 2 false false
    [("9.9.9.9", ⟨1, 86400000⟩)] [("y@yopmail.com", ⟨1, 86400000⟩)]
    rfl rfl (by decide) rfl
  exact ⟨h.2.1 (by decide), h.1.1⟩

/-- C6, counterexample: the disposable check does not reject exactly the
blocklisted or empty domains — `"a@thetempmail.org"` has the non-empty domain
`"thetempmail.org"`, which is not in the blocklist, yet the check rejects it
(the code also substring-matches `"tempmail"` and `"trashmail"`). -/
theorem disposable_check_counterexample :
    isDisposableEmail true "a@thetempmail.org" = true ∧
    getDomain "a@thetempmail.org" = "thetempmail.org" ∧
    blockedDomains.contains "thetempmail.org" = false ∧
    getDomain "a@thetempmail.org" ≠ "" := by
  refine ⟨by decide, by decide, by decide, by decide⟩

/-- C6, amended: the check extracts the domain as the trimmed, lower-cased
substring after the last `@` (empty when there is no `@`), and, when enabled,
rejects exactly the emails whose domain is empty, is in the static blocklist,
or contains `"tempmail"` or `"trashmail"` as a substring; when disabled it
accepts every email. -/
theorem disposable_check_characterisation (email : String) :
    isDisposableEmail false email = false ∧
    (isDisposableEmail true email = true ↔
      (getDomain email = "" ∨ blockedDomains.contains (getDomain email) = true ∨
       hasSub "tempmail".data (getDomain email).data = true ∨
       hasSub "trashmail".data (getDomain email).data = true)) := by
  refine ⟨rfl, ?_⟩
  unfold isDisposableEmail
  by_cases h : getDomain email = ""
  · simp [h]
  · simp [h, Bool.or_eq_true, or_assoc]

/-- Witness for C6's amended theorem: with the block enabled, the
blocklisted `"x@mailinator.com"` is rejected; with it disabled, accepted. -/
theorem disposable_check_characterisation_witness :
    isDisposableEmail false "x@mailinator.com" = false ∧
    isDisposableEmail true "x@mailinator.com" = true := by
  refine ⟨(disposable_check_characterisation "x@mailinator.com").1, ?_⟩
  exact (disposable_check_characterisation "x@mailinator.com").2.mpr
    (Or.inr (Or.inl (by decide)))

/-- C7: for every daily limit `L ≥ 1` and key, within one day the `L`-th
call to the quota counter is accepted and the `(L+1)`-th is rejected — for
both `bumpDaily` (the draft route file's counter) and `hitCounter` (the
canonical route file's counter) — and in the create handler a rejected per-IP
quota check yields the QuotaExceeded response, whose status is 429. -/
theorem daily_quota_boundary (L : Nat) (today key : String) (now next : Nat)
    (hL : 1 ≤ L) (hnow : now < next) :
    (runBump L today key L).1 = true ∧
    (runBump L today key (L + 1)).1 = false ∧
    (runHit L now next key L).1 = true ∧
    (runHit L now next key (L + 1)).1 = false ∧
    createStatus .quotaIp = 429 ∧ createStatus .quotaEmail = 429 ∧
    (∀ (cfg : Config) (rq : CreateReq) (st : SrvState) (pid : String)
      (nid : Nat) (orc eo : Bool) (m : List (String × Counter)),
      (verifyTurnstile cfg.turnstileSecret rq.turnstileToken orc).ok = true →
      hitCounter st.ipDaily (if rq.ip = "" then "unknown" else rq.ip)
        dailyMaxPerIp now next = (false, m) →
      createHandler cfg rq st now next pid nid orc eo =
        (.quotaIp, { st with ipDaily := m })) := by
  refine ⟨?_, ?_, ?_, ?_, rfl, rfl, ?_⟩
  · rw [runBump_le L today key hL L hL (le_refl L)]
  · rw [runBump_over L today key hL]
  · rw [runHit_le L now next key hnow L hL (le_refl L)]
  · rw [runHit_over L now next key hnow hL]
  · intro cfg rq st pid nid orc eo m hcap hIp
    simp [createHandler, hcap, hIp]

/-- Witness for C7 at `L = 2` and a saturated per-IP counter in the handler
conjunct. -/
theorem daily_quota_boundary_witness :
    (runBump 2 "2026-10-11" "k" 2).1 = true ∧
    (runBump 2 "2026-10-11" "k" 3).1 = false ∧
    (runHit 2 0 10 "k" 2).1 = true ∧
    (runHit 2 0 10 "k" 3).1 = false ∧
    createHandler ⟨"", false, false⟩ ⟨"r@x.com", "m", some (some 1500), "", "a"⟩
        ⟨[("a", ⟨20, 10⟩)], [], []⟩ 0 10 "p" 1 false false =
      (.quotaIp, ⟨[("a", ⟨21, 10⟩)], [], []⟩) := by
  have h := daily_quota_boundary 2 "2026-10-11" "k" 0 10 (by decide) (by decide)
  refine ⟨h.1, h.2.1, h.2.2.1, h.2.2.2.1, ?_⟩
  exact h.2.2.2.2.2.2 ⟨"", false, false⟩ ⟨"r@x.com", "m", some (some 1500), "", "a"⟩
    ⟨[("a", ⟨20, 10⟩)], [], []⟩ "p" 1 false false [("a", ⟨21, 10⟩)] rfl (by decide)

/-- C8: the amount checks accept the configured minimum 1000 (both in the
handler's guard and in the zod schema, for either tier setting) and reject
999 with a validation error on the `amount` field; any non-integer or
non-positive amount — and a non-finite one — is rejected with a validation
error on the `amount` field. -/
theorem amount_floor_validation (b : Bool) (email msg : String) (q : ℚ) :
    amountGuard b (some 1000) = none ∧
    zodParseGift email msg (some 1000) = .ok ⟨email, msg, 1000⟩ ∧
    amountGuard b (some 999) = some ("amount", "Minimum amount is $10") ∧
    (q.den ≠ 1 ∨ q ≤ 0 → amountGuard b (some q) = some ("amount", "Invalid amount.")) ∧
    amountGuard b none = some ("amount", "Invalid amount.") := by
  refine ⟨?_, ?_, ?_, ?_, rfl⟩
  · cases b <;> decide
  · simp only [zodParseGift]
    norm_num
  · cases b <;> decide
  · intro h
    simp only [amountGuard]
    rw [if_pos h]

/-- Witness for C8 at `q = -3` (non-positive) — with the other conjuncts
instantiated at a concrete field pair. -/
theorem amount_floor_validation_witness :
    amountGuard false (some 1000) = none ∧
    zodParseGift "a@b.c" "hi" (some 1000) = .ok ⟨"a@b.c", "hi", 1000⟩ ∧
    amountGuard false (some 999) = some ("amount", "Minimum amount is $10") ∧
    amountGuard false (some (-3)) = some ("amount", "Invalid amount.") := by
  have h := amount_floor_validation false "a@b.c" "hi" (-3)
  exact ⟨h.1, h.2.1, h.2.2.1, h.2.2.2.1 (Or.inr (by norm_num))⟩

/-- C10: with no configured Turnstile secret, `verifyTurnstile` reports
success for every token (including the empty one) without contacting the
external verification service, and consequently no creation request is
rejected by the CAPTCHA gate in that configuration. -/
theorem turnstile_unset_accepts_all (token : String) (orc : Bool) (cfg : Config)
    (rq : CreateReq) (st : SrvState) (now next : Nat) (pid : String) (nid : Nat)
    (eo : Bool) (hsec : cfg.turnstileSecret = "") :
    verifyTurnstile "" token orc = ⟨true, false⟩ ∧
    (createHandler cfg rq st now next pid nid orc eo).1 ≠ .captchaFailed := by
  refine ⟨rfl, ?_⟩
  simp only [createHandler]
  rw [hsec]
  rw [show verifyTurnstile "" rq.turnstileToken orc = ⟨true, false⟩ from rfl]
  rw [if_neg (by decide : ¬((⟨true, false⟩ : TurnstileResult).ok = false))]
  repeat' split
  all_goals simp

/-- Witness for C10: empty secret, empty token — the CAPTCHA gate passes and
a concrete creation request is not rejected by it. -/
theorem turnstile_unset_accepts_all_witness :
    verifyTurnstile "" "" true = ⟨true, false⟩ ∧
    (createHandler ⟨"", false, false⟩ ⟨"a@b.c", "m", some (some 1500), "", "ip"⟩
      ⟨[], [], []⟩ 0 10 "p" 1 true false).1 ≠ .captchaFailed := by
  have h := turnstile_unset_accepts_all "" true ⟨"", false, false⟩
    ⟨"a@b.c", "m", some (some 1500), "", "ip"⟩ ⟨[], [], []⟩ 0 10 "p" 1 false rfl
  exact ⟨h.1, h.2⟩

end Thankumail
